import Mathlib

/-!
Verification development for the playwright-scrapper-IG repository.

The Python scripts are shallowly embedded: pure text-processing functions become
Lean functions over `List Char`, stateful scroll loops become fuel-bounded
recursions over an abstract stream of DOM readings, and code that can raise an
uncaught Python exception is modelled with `Option` (`none` = the exception
escapes the function).

Numeric conventions of the embedding:
* A parsed Python `float` is represented exactly as a scaled decimal
  `(n, k) : Int × Nat` standing for the rational value `n / 10^k`; every
  numeral appearing in a theorem below is exactly representable and small
  enough that IEEE-754 double evaluation in CPython yields the same integer
  after truncation, so the exact representation does not change any result
  stated here.  Exponent notation (`1e3`), `inf`/`nan` and underscore digit
  separators are not modelled; no input in this file uses them, and at every
  call site an `inf`/`nan` result would be converted to the same value `0`
  by the surrounding `int()`/`except` handling that the model already takes.
* Python `int(x)` on a float is truncation toward zero (`truncDiv` on the
  scaled decimal, `pyInt` on a rational).
* Python `round(x, 2)` is round-half-to-even at two decimals (`round2`).
* Python string methods are re-implemented on `List Char`:
  `strip` (`pyStrip`), `split()[0]` (`pyFirstToken`), `upper` (`List.map
  Char.toUpper`), single-character `replace(c, '')` (`List.filter (· ≠ c)`).
-/

namespace Py

/-- Python `str.strip()`: drop whitespace from both ends. -/
def pyStrip (cs : List Char) : List Char :=
  ((cs.dropWhile Char.isWhitespace).reverse.dropWhile Char.isWhitespace).reverse

/-- Python `text.strip().split()[0]`: the first whitespace-delimited token;
`none` models the `IndexError` raised when the string has no token. -/
def pyFirstToken (cs : List Char) : Option (List Char) :=
  let t := cs.dropWhile Char.isWhitespace
  if t.isEmpty then none else some (t.takeWhile (fun c => ¬ c.isWhitespace))

/-- Character class of the regex `[\d.]`. -/
def isDigitDot (c : Char) : Bool := c.isDigit || c = '.'

/-- `re.search(r'([\d.]+)(...)', text)` locator: the leftmost maximal run of
digit-or-dot characters, together with the remainder of the string after the
run; `none` when no such run exists (no match). -/
def findRun : List Char → Option (List Char × List Char)
  | [] => none
  | c :: rest =>
    if isDigitDot c then
      some ((c :: rest).takeWhile isDigitDot, (c :: rest).dropWhile isDigitDot)
    else findRun rest

/-- Value of a digit string (most significant first). -/
def natOfDigits (cs : List Char) : Nat :=
  cs.foldl (fun n c => n * 10 + (c.toNat - 48)) 0

/-- Python `float()` on a sign-stripped body: `[digits] ['.' digits]` with at
least one digit overall; `none` models `ValueError`.  The result `(n, k)`
stands for the exact value `n / 10^k`. -/
def pyFloatBody (cs : List Char) : Option (Nat × Nat) :=
  let intPart := cs.takeWhile Char.isDigit
  let rest := cs.dropWhile Char.isDigit
  match rest with
  | [] => if intPart.isEmpty then none else some (natOfDigits intPart, 0)
  | '.' :: frac =>
    if frac.all Char.isDigit ∧ (¬ intPart.isEmpty ∨ ¬ frac.isEmpty) then
      some (natOfDigits (intPart ++ frac), frac.length)
    else none
  | _ => none

/-- Python `float()` on a whitespace-free character list: optional sign, then
a decimal body; `none` models `ValueError`. -/
def pyFloatChars (cs : List Char) : Option (Int × Nat) :=
  match cs with
  | [] => none
  | c :: rest =>
    if c = '-' then (pyFloatBody rest).map (fun p => (-(p.1 : Int), p.2))
    else if c = '+' then (pyFloatBody rest).map (fun p => ((p.1 : Int), p.2))
    else (pyFloatBody (c :: rest)).map (fun p => ((p.1 : Int), p.2))

/-- The exact rational value of a scaled decimal. -/
def floatVal (p : Int × Nat) : ℚ := (p.1 : ℚ) / (10 : ℚ) ^ p.2

/-- Truncating division toward zero of an integer by a natural number:
the effect of Python `int()` on an exact quotient. -/
def truncDiv (a : Int) (b : Nat) : Int :=
  if 0 ≤ a then ((a.toNat / b : Nat) : Int) else -(((-a).toNat / b : Nat) : Int)

/-- Python `int(v * mult)` where `v` is the float `(n, k)` and `mult` a
positive integer multiplier: truncation toward zero of `n * mult / 10^k`. -/
def pyIntMul (p : Int × Nat) (mult : Nat) : Int :=
  truncDiv (p.1 * mult) (10 ^ p.2)

/-- Checked rational division; `none` models Python's `ZeroDivisionError`. -/
def qdiv (a b : ℚ) : Option ℚ := if b = 0 then none else some (a / b)

/-- Python `int(x)` on a rational: truncation toward zero. -/
def pyInt (q : ℚ) : Int := if q < 0 then -(Int.floor (-q)) else Int.floor q

/-- Round-half-to-even to the nearest integer (CPython `round` tie-breaking). -/
def roundHalfEven (q : ℚ) : Int :=
  let f := Int.floor q
  let r := q - f
  if r < 1/2 then f
  else if 1/2 < r then f + 1
  else if f % 2 = 0 then f else f + 1

/-- Python `round(x, 2)`. -/
def round2 (q : ℚ) : ℚ := (roundHalfEven (q * 100) : ℚ) / 100

end Py

open Py

namespace InstagramScraper

/-- `InstagramScraper._parse_number` (instagram_scraper.py).
`text.strip().split()[0]` runs OUTSIDE the `try`, so a string with no
whitespace-delimited token raises `IndexError` (modelled by `none`).  Only the
`float`/`int` conversion is guarded, yielding `0` on failure.  Recognizes only
`K` and `M` suffixes (anywhere in the token, after upper-casing). -/
def parse_number (text : String) : Option Int :=
  match pyFirstToken text.toList with
  | none => none
  | some tok =>
    let (mult, t) : Nat × List Char :=
      let up := tok.map Char.toUpper
      if up.any (· = 'K') then (1000, up.filter (· ≠ 'K'))
      else if up.any (· = 'M') then (1000000, up.filter (· ≠ 'M'))
      else (1, tok)
    some (match pyFloatChars (pyStrip (t.filter (· ≠ ','))) with
          | some p => pyIntMul p mult
          | none => 0)

end InstagramScraper

namespace CommentsScraper

/-- `InstagramCommentsScraper._parse_number` (ig_scrapper_comments_from_post.py).
Its body is character-identical to `InstagramScraper.parse_number`, but the
whole body sits under one `try`, so every failure path (including the
`IndexError` on token-less input) is converted to `0`: the function is total. -/
def parse_number (text : String) : Int :=
  (InstagramScraper.parse_number text).getD 0

end CommentsScraper

namespace EngagementScraper

/-- `InstagramEngagementScraper._convert_to_number` (scrapper-ig.py).
Commas are stripped, then the first suffix among K, M, B (dict order) found in
the upper-cased text selects a multiplier; in that branch `float` runs with no
`try`, so an unparseable remainder raises `ValueError` (`none`).  Without a
suffix, `int(float(text))` is guarded and yields `0` on failure. -/
def convert_to_number (text0 : String) : Option Int :=
  let text := pyStrip (text0.toList.filter (· ≠ ','))
  let up := text.map Char.toUpper
  if up.any (· = 'K') then
    (pyFloatChars (pyStrip (up.filter (· ≠ 'K')))).map (fun p => pyIntMul p 1000)
  else if up.any (· = 'M') then
    (pyFloatChars (pyStrip (up.filter (· ≠ 'M')))).map (fun p => pyIntMul p 1000000)
  else if up.any (· = 'B') then
    (pyFloatChars (pyStrip (up.filter (· ≠ 'B')))).map (fun p => pyIntMul p 1000000000)
  else
    some (match pyFloatChars text with
          | some p => pyIntMul p 1
          | none => 0)

end EngagementScraper

namespace TikTok

/-- Shared tail of the two TikTok `parse_count` implementations, applied to the
already-normalized character list: locate `([\d.]+)([KMB]?)`, `float` the first
group (uncaught `ValueError` when the run has no digit, e.g. `"."`), and apply
the suffix multiplier. -/
def parse_count_core (t : List Char) : Option Int :=
  match findRun t with
  | none => some 0
  | some (run, after) =>
    match pyFloatChars run with
    | none => none
    | some p =>
      let mult : Nat :=
        match after with
        | c :: _ =>
          if c = 'K' then 1000 else if c = 'M' then 1000000
          else if c = 'B' then 1000000000 else 1
        | [] => 1
      some (pyIntMul p mult)

/-- `TikTokProfileScraper.parse_count` (scrapper-tiktok.py): empty input short
circuits to `0`; the text is stripped and upper-cased but commas are NOT
removed before the regex runs. -/
def parse_count (text : String) : Option Int :=
  if text.toList.isEmpty then some 0
  else parse_count_core ((pyStrip text.toList).map Char.toUpper)

end TikTok

namespace TikTokXPath

/-- `AdvancedTikTokXPathScraper.parse_count` (scrapper-tiktok-xpath.py): same as
`TikTok.parse_count` except commas are removed before the regex runs. -/
def parse_count (text : String) : Option Int :=
  if text.toList.isEmpty then some 0
  else TikTok.parse_count_core (((pyStrip text.toList).map Char.toUpper).filter (· ≠ ','))

end TikTokXPath

namespace CommentsScraper

/-- One run of the loop body of `InstagramCommentsScraper._scroll_comments_to_end`:
at state `(prev, i)` with `fuel` iterations left, the loop scrolls (its
`i`-th scroll action, 0-based), reads `sig i` (`el.scrollTop` after the
scroll), returns `(True, scrolls so far)` when the reading equals the previous
one, and otherwise continues.  Fuel exhaustion is the `max_attempts` exit,
returning `False`. -/
def scroll_aux (sig : Nat → Int) : Int → Nat → Nat → Bool × Nat
  | _, i, 0 => (false, i)
  | prev, i, fuel + 1 =>
    if sig i = prev then (true, i + 1) else scroll_aux sig (sig i) (i + 1) fuel

/-- `InstagramCommentsScraper._scroll_comments_to_end`
(ig_scrapper_comments_from_post.py): `prev_scroll` starts at `-1`,
`max_attempts = 30`; returns whether the loop converged together with the
number of scroll actions performed.  `sig i` is the `scrollTop` reading taken
after the `(i+1)`-th scroll action. -/
def scroll_comments_to_end (sig : Nat → Int) : Bool × Nat :=
  scroll_aux sig (-1) 0 30

/-- The value `prev_scroll` holds when the loop is about to take reading `k`:
`-1` initially, afterwards the previous reading. -/
def prevSig (sig : Nat → Int) : Nat → Int
  | 0 => -1
  | k + 1 => sig k

theorem scroll_aux_converges (sig : Nat → Int) :
    ∀ (fuel i k : Nat), i ≤ k → k < i + fuel →
      sig k = prevSig sig k →
      (∀ j, i ≤ j → j < k → sig j ≠ prevSig sig j) →
      scroll_aux sig (prevSig sig i) i fuel = (true, k + 1) := by
  intro fuel
  induction fuel with
  | zero => intro i k hik hk _ _; omega
  | succ f ih =>
    intro i k hik hk hconv hmin
    rcases Nat.eq_or_lt_of_le hik with heq | hlt
    · subst heq
      simp [scroll_aux, hconv]
    · have hne : sig i ≠ prevSig sig i := hmin i le_rfl hlt
      have hstep : prevSig sig (i + 1) = sig i := rfl
      simp only [scroll_aux, if_neg hne]
      have := ih (i + 1) k hlt (by omega) hconv
        (fun j hj1 hj2 => hmin j (by omega) hj2)
      rw [hstep] at this
      exact this

theorem scroll_aux_exhausts (sig : Nat → Int) :
    ∀ (fuel i : Nat),
      (∀ j, i ≤ j → j < i + fuel → sig j ≠ prevSig sig j) →
      scroll_aux sig (prevSig sig i) i fuel = (false, i + fuel) := by
  intro fuel
  induction fuel with
  | zero => intro i _; simp [scroll_aux]
  | succ f ih =>
    intro i hall
    have hne : sig i ≠ prevSig sig i := hall i le_rfl (by omega)
    simp only [scroll_aux, if_neg hne]
    have hstep : prevSig sig (i + 1) = sig i := rfl
    have := ih (i + 1) (fun j hj1 hj2 => hall j (by omega) (by omega))
    rw [hstep] at this
    rw [this]
    have h2 : i + 1 + f = i + (f + 1) := by omega
    rw [h2]

theorem scroll_aux_bound (sig : Nat → Int) :
    ∀ (fuel i : Nat) (prev : Int),
      (scroll_aux sig prev i fuel).2 ≤ i + fuel ∧
        ((scroll_aux sig prev i fuel).1 = false →
          (scroll_aux sig prev i fuel).2 = i + fuel) := by
  intro fuel
  induction fuel with
  | zero => intro i prev; simp [scroll_aux]
  | succ f ih =>
    intro i prev
    by_cases h : sig i = prev
    · simp [scroll_aux, h]
    · simp only [scroll_aux, if_neg h]
      have := ih (i + 1) (sig i)
      constructor
      · omega
      · intro hfalse
        have := (ih (i + 1) (sig i)).2 hfalse
        omega

end CommentsScraper

namespace InstagramScraper

/-- One run of the inline comment-window scroll loop of
`InstagramScraper._scrape_single_post`: at iteration `i` with `fuel`
iterations left, the loop scrolls and compares the value of the scroll
assignment (`(f i).1`, i.e. `el.scrollTop = el.scrollHeight`) with the
`scrollHeight` re-read after the sleep (`(f i).2`), breaking on equality.
Returns whether the loop broke early plus the number of iterations run. -/
def post_scroll_aux (f : Nat → Int × Int) : Nat → Nat → Bool × Nat
  | i, 0 => (false, i)
  | i, fuel + 1 =>
    if (f i).1 = (f i).2 then (true, i + 1) else post_scroll_aux f (i + 1) fuel

/-- The `max_attempts = 20` comment-window scroll loop inside
`InstagramScraper._scrape_single_post` (instagram_scraper.py). -/
def single_post_scroll (f : Nat → Int × Int) : Bool × Nat :=
  post_scroll_aux f 0 20

theorem post_scroll_aux_bound (f : Nat → Int × Int) :
    ∀ (fuel i : Nat), (post_scroll_aux f i fuel).2 ≤ i + fuel := by
  intro fuel
  induction fuel with
  | zero => intro i; simp [post_scroll_aux]
  | succ n ih =>
    intro i
    by_cases h : (f i).1 = (f i).2
    · simp [post_scroll_aux, h]
    · simp only [post_scroll_aux, if_neg h]
      have := ih (i + 1)
      omega

end InstagramScraper

namespace CommentsScraper

/-- A comment element of the post page, described by what each locator of
`InstagramCommentsScraper._extract_comment_data` would yield on it:
`usernameCands`/`textCands` list, per selector in source order, the
`inner_text` outcome (`none` = the locator lookup or `inner_text` call
raises / times out).  `raises` models an exception escaping the per-item
extraction (`_extract_comment_data` then returns `None` through its outer
`except`, or the caller's `except ... continue` fires). -/
structure CommentElem where
  usernameCands : List (Option String)
  textCands : List (Option String)
  raises : Bool
deriving DecidableEq, Repr

/-- The selector-fallback loop shared by both fields of
`_extract_comment_data`: take the first candidate whose text is non-empty
after stripping (`if username_text and username_text.strip():`), storing the
stripped text; a raising candidate is skipped (`except ... continue`). -/
def firstHit : List (Option String) → Option String
  | [] => none
  | none :: rest => firstHit rest
  | some s :: rest =>
    if (pyStrip s.toList).isEmpty then firstHit rest
    else some (String.mk (pyStrip s.toList))

/-- The per-comment record built by `_extract_comment_data`:
`{'index': idx, 'username': ..., 'text': ...}` with `'N/A'` defaults. -/
structure CommentData where
  index : Nat
  username : String
  text : String
deriving DecidableEq, Repr

/-- `InstagramCommentsScraper._extract_comment_data` (ig_scrapper_comments_from_post.py):
`none` when extraction of this element raises; otherwise a record whose
fields fall back to the `'N/A'` defaults on a total selector miss. -/
def extract_comment_data (e : CommentElem) (idx : Nat) : Option CommentData :=
  if e.raises then none
  else some
    { index := idx
      username := (firstHit e.usernameCands).getD "N/A"
      text := (firstHit e.textCands).getD "N/A" }

/-- The extraction loop of `InstagramCommentsScraper.scrape_post_comments`
(lines 297-304): `for idx, comment_elem in enumerate(comment_elements, 1)`,
appending `_extract_comment_data(comment_elem, idx)` when it returns a record,
and skipping the element (`continue`) when it raises or returns `None`. -/
def scrape_comments_loop (elems : List CommentElem) : List CommentData :=
  (elems.enumFrom 1).filterMap fun p => extract_comment_data p.2 p.1

theorem extract_comment_none (e : CommentElem) (idx : Nat) (h : e.raises = true) :
    extract_comment_data e idx = none := by
  simp [extract_comment_data, h]

theorem extract_comment_some (e : CommentElem) (idx : Nat) (h : ¬ e.raises = true) :
    extract_comment_data e idx =
      some ⟨idx, (firstHit e.usernameCands).getD "N/A",
        (firstHit e.textCands).getD "N/A"⟩ := by
  simp [extract_comment_data, h]

theorem scrape_loop_length_aux (elems : List CommentElem) :
    ∀ s : Nat,
      ((elems.enumFrom s).filterMap fun p => extract_comment_data p.2 p.1).length =
        (elems.filter fun e => !e.raises).length := by
  induction elems with
  | nil => intro s; simp
  | cons e es ih =>
    intro s
    rw [List.enumFrom_cons, List.filterMap_cons, List.filter_cons]
    by_cases h : e.raises
    · rw [extract_comment_none e s h]
      simp only [h, Bool.not_true]
      rw [if_neg (by simp)]
      exact ih (s + 1)
    · rw [extract_comment_some e s h]
      simp only [Bool.not_eq_true] at h
      simp only [h, Bool.not_false, if_true]
      simp only [List.length_cons]
      rw [ih (s + 1)]

/-- The `index` fields of the records returned by the comment loop, read in
order, form a sublist of `[s, s+1, ..., s+n-1]`: they are exactly the 1-based
discovery positions of the surviving elements, in strictly increasing order. -/
theorem scrape_loop_index_sublist_aux (elems : List CommentElem) :
    ∀ s : Nat,
      (((elems.enumFrom s).filterMap fun p => extract_comment_data p.2 p.1).map
          CommentData.index).Sublist (List.range' s elems.length) := by
  induction elems with
  | nil => intro s; simp
  | cons e es ih =>
    intro s
    simp only [List.length_cons]
    rw [List.range'_succ, List.enumFrom_cons, List.filterMap_cons]
    by_cases h : e.raises
    · rw [extract_comment_none e s h]
      exact (ih (s + 1)).cons s
    · rw [extract_comment_some e s h, List.map_cons]
      exact (ih (s + 1)).cons₂ s

/-- Every record returned by the comment loop was produced from the element at
its own discovery position: position `d.index - s` in the remaining list. -/
theorem scrape_loop_provenance_aux (elems : List CommentElem) :
    ∀ (s : Nat) (d : CommentData),
      d ∈ ((elems.enumFrom s).filterMap fun p => extract_comment_data p.2 p.1) →
      s ≤ d.index ∧
        (elems.get? (d.index - s)).bind (fun e => extract_comment_data e d.index)
          = some d := by
  induction elems with
  | nil => intro s d hd; simp at hd
  | cons e es ih =>
    intro s d hd
    rw [List.enumFrom_cons, List.filterMap_cons] at hd
    by_cases h : e.raises
    · rw [extract_comment_none e s h] at hd
      obtain ⟨hs, hext⟩ := ih (s + 1) d hd
      have hpos : d.index - s = (d.index - (s + 1)) + 1 := by omega
      refine ⟨by omega, ?_⟩
      rw [hpos]
      simpa using hext
    · rw [extract_comment_some e s h, List.mem_cons] at hd
      rcases hd with hd | hd
      · have hidx : d.index = s := by rw [hd]
        have h0 : d.index - s = 0 := by omega
        refine ⟨by omega, ?_⟩
        rw [h0]
        simp only [List.get?, Option.bind_some, Option.some_bind]
        rw [hidx, extract_comment_some e s h, hd]
      · obtain ⟨hs, hext⟩ := ih (s + 1) d hd
        have hpos : d.index - s = (d.index - (s + 1)) + 1 := by omega
        refine ⟨by omega, ?_⟩
        rw [hpos]
        simpa using hext

end CommentsScraper

namespace TikTokXPath

/-- A `user-post-item` element, described by what the scraper's queries would
yield on it: `viewsNode` is the `inner_text` of its `video-views` descendant
(`none` = no such descendant), `linkNode` is the link element (`none` = no
link; `some h` = link present with `href` attribute `h`, where `h = none`
models a `null` attribute).  `raises` models an exception escaping the
per-item `try` body. -/
structure VideoElem where
  viewsNode : Option String
  linkNode : Option (Option String)
  raises : Bool
deriving DecidableEq, Repr

/-- A record appended to `videos` by `AdvancedTikTokXPathScraper._load_videos`. -/
structure VideoRec where
  index : Nat
  views : Int
  url : Option String
deriving DecidableEq, Repr

/-- `get_element_text(XPATHS['video_views'])` as called inside the per-item
loop of `_load_videos`: it queries `self.page`, i.e. the WHOLE document, so it
returns the stripped text of the first `video-views` node of the first video
that has one — regardless of which item is being extracted ('' when the query
finds nothing). -/
def pageQueryViews (elems : List VideoElem) : String :=
  match elems.findSome? (fun e => e.viewsNode) with
  | some s => String.mk (pyStrip s.toList)
  | none => ""

/-- The body of the per-item `try` in `_load_videos` (scrapper-tiktok-xpath.py,
lines 200-226): views come from the document-scoped query first and only fall
back to the child element when that is empty; any exception (including a
`ValueError` from `parse_count`) appends the default record
`{'index': idx+1, 'views': 0, 'url': None}`. -/
def extract_video (pageViews : String) (e : VideoElem) (idx : Nat) : VideoRec :=
  let attempt : Option VideoRec :=
    if e.raises then none
    else
      let vt := if pageViews.toList.isEmpty then e.viewsNode.getD "0" else pageViews
      (parse_count vt).map fun v =>
        { index := idx + 1
          views := v
          url := match e.linkNode with
                 | some (some h) => if h.toList.isEmpty then none else some h
                 | _ => none }
  attempt.getD { index := idx + 1, views := 0, url := none }

/-- The `for idx, video_element in enumerate(video_elements[:max_videos])`
loop of `_load_videos`: an element at position `idx` is extracted only when
`idx >= len(videos)`; its record is appended to `videos`. -/
def extract_pass_aux (pageViews : String) :
    List VideoElem → Nat → List VideoRec → List VideoRec
  | [], _, vs => vs
  | e :: rest, idx, vs =>
    extract_pass_aux pageViews rest (idx + 1)
      (if vs.length ≤ idx then vs ++ [extract_video pageViews e idx] else vs)

/-- One full pass of the extraction loop over the currently rendered items. -/
def extract_pass (pageViews : String) (elems : List VideoElem)
    (vs : List VideoRec) : List VideoRec :=
  extract_pass_aux pageViews elems 0 vs

/-- The `while` loop of `_load_videos`: `passes t` is the list of
`user-post-item` elements present in the DOM after `t` scroll actions;
`max_scrolls = 20` is the fuel; state is `(attempts, last_count,
no_change_count, videos)`; every exit returns `videos[:max_videos]`. -/
def load_videos_go (passes : Nat → List VideoElem) (maxVideos : Nat) :
    Nat → Nat → Nat → Nat → List VideoRec → List VideoRec
  | 0, _, _, _, vs => vs.take maxVideos
  | fuel + 1, att, lastCount, noChange, vs =>
    if vs.length < maxVideos then
      let elems := passes att
      let vs2 := extract_pass (pageQueryViews elems) (elems.take maxVideos) vs
      if elems.length = lastCount then
        if 3 ≤ noChange + 1 then vs2.take maxVideos
        else if maxVideos ≤ vs2.length then vs2.take maxVideos
        else load_videos_go passes maxVideos fuel (att + 1) elems.length (noChange + 1) vs2
      else if maxVideos ≤ vs2.length then vs2.take maxVideos
      else load_videos_go passes maxVideos fuel (att + 1) elems.length 0 vs2
    else vs.take maxVideos

/-- `AdvancedTikTokXPathScraper._load_videos` (scrapper-tiktok-xpath.py). -/
def load_videos (passes : Nat → List VideoElem) (maxVideos : Nat) : List VideoRec :=
  load_videos_go passes maxVideos 20 0 0 0 []

theorem take_range' :
    ∀ (n : Nat) (s m : Nat), (List.range' s n).take m = List.range' s (min m n) := by
  intro n
  induction n with
  | zero => intro s m; simp
  | succ n ih =>
    intro s m
    cases m with
    | zero => simp
    | succ m =>
      rw [List.range'_succ, List.take_succ_cons, ih (s + 1) m,
        Nat.succ_min_succ, List.range'_succ]

/-- The appended record always carries index `idx + 1`, whichever branch of
the per-item `try` produced it. -/
theorem extract_video_index (pageViews : String) (e : VideoElem) (idx : Nat) :
    (extract_video pageViews e idx).index = idx + 1 := by
  unfold extract_video
  by_cases h : e.raises
  · simp [h]
  · simp only [h, Bool.false_eq_true, if_false]
    cases hpc : parse_count (if pageViews.toList.isEmpty then e.viewsNode.getD "0" else pageViews) with
    | none => simp [hpc]
    | some v => simp [hpc]

theorem extract_pass_aux_length (pageViews : String) :
    ∀ (elems : List VideoElem) (idx : Nat) (vs : List VideoRec), idx = vs.length →
      (extract_pass_aux pageViews elems idx vs).length = vs.length + elems.length := by
  intro elems
  induction elems with
  | nil => intro idx vs h; simp [extract_pass_aux]
  | cons e rest ih =>
    intro idx vs h
    simp only [extract_pass_aux]
    rw [if_pos (by omega)]
    have hlen : (vs ++ [extract_video pageViews e idx]).length = vs.length + 1 := by simp
    rw [ih (idx + 1) (vs ++ [extract_video pageViews e idx]) (by omega)]
    simp [hlen]
    omega

theorem extract_pass_aux_index (pageViews : String) :
    ∀ (elems : List VideoElem) (idx : Nat) (vs : List VideoRec),
      idx ≤ vs.length →
      vs.map VideoRec.index = List.range' 1 vs.length →
      (extract_pass_aux pageViews elems idx vs).map VideoRec.index
        = List.range' 1 (extract_pass_aux pageViews elems idx vs).length := by
  intro elems
  induction elems with
  | nil => intro idx vs _ hinv; simpa [extract_pass_aux] using hinv
  | cons e rest ih =>
    intro idx vs hle hinv
    simp only [extract_pass_aux]
    by_cases h : vs.length ≤ idx
    · rw [if_pos h]
      have hidx : idx = vs.length := by omega
      apply ih (idx + 1) (vs ++ [extract_video pageViews e idx]) (by simp; omega)
      rw [List.map_append, hinv]
      simp only [List.map_cons, List.map_nil, extract_video_index, List.length_append,
        List.length_cons, List.length_nil]
      rw [hidx, List.range'_concat]
      simp [Nat.add_comm]
    · rw [if_neg h]
      exact ih (idx + 1) vs (by omega) hinv

/-- Taking a prefix preserves the "indices are exactly `1..n`" invariant. -/
theorem take_index_invariant (l : List VideoRec) (k : Nat)
    (h : l.map VideoRec.index = List.range' 1 l.length) :
    (l.take k).map VideoRec.index = List.range' 1 (l.take k).length := by
  rw [List.map_take, h, take_range', List.length_take]

theorem load_videos_go_index (passes : Nat → List VideoElem) (maxVideos : Nat) :
    ∀ (fuel att lastCount noChange : Nat) (vs : List VideoRec),
      vs.map VideoRec.index = List.range' 1 vs.length →
      (load_videos_go passes maxVideos fuel att lastCount noChange vs).map VideoRec.index
        = List.range' 1 (load_videos_go passes maxVideos fuel att lastCount noChange vs).length := by
  intro fuel
  induction fuel with
  | zero =>
    intro att lc nc vs h
    simp only [load_videos_go]
    exact take_index_invariant _ _ h
  | succ f ih =>
    intro att lc nc vs h
    have hpass : (extract_pass (pageQueryViews (passes att)) ((passes att).take maxVideos) vs).map
        VideoRec.index = List.range' 1
          (extract_pass (pageQueryViews (passes att)) ((passes att).take maxVideos) vs).length :=
      extract_pass_aux_index _ _ 0 vs (by omega) h
    simp only [load_videos_go]
    by_cases h1 : vs.length < maxVideos
    · rw [if_pos h1]
      by_cases h2 : (passes att).length = lc
      · rw [if_pos h2]
        by_cases h3 : 3 ≤ nc + 1
        · rw [if_pos h3]
          exact take_index_invariant _ _ hpass
        · rw [if_neg h3]
          by_cases h4 : maxVideos ≤
              (extract_pass (pageQueryViews (passes att)) ((passes att).take maxVideos) vs).length
          · rw [if_pos h4]
            exact take_index_invariant _ _ hpass
          · rw [if_neg h4]
            exact ih _ _ _ _ hpass
      · rw [if_neg h2]
        by_cases h4 : maxVideos ≤
            (extract_pass (pageQueryViews (passes att)) ((passes att).take maxVideos) vs).length
        · rw [if_pos h4]
          exact take_index_invariant _ _ hpass
        · rw [if_neg h4]
          exact ih _ _ _ _ hpass
    · rw [if_neg h1]
      exact take_index_invariant _ _ h

end TikTokXPath

theorem qdiv_some (a b : ℚ) (h : b ≠ 0) : qdiv a b = some (a / b) := by
  simp [qdiv, h]

namespace InstagramScraper

/-- `InstagramScraper.calculate_engagement_rate` (instagram_scraper.py):
`(likes + comments) / followers * 100` when `followers > 0`, else `0`, then
`round(·, 2)`.  Division is checked (`none` would be `ZeroDivisionError`). -/
def calculate_engagement_rate (likes comments followers : Nat) : Option ℚ :=
  (if 0 < followers then
      (qdiv ((likes : ℚ) + (comments : ℚ)) (followers : ℚ)).map (· * 100)
    else some 0).map round2

end InstagramScraper

/-- The engagement-rate formula exactly as the spec words it: the configured
interaction sum divided by the follower count, times 100, rounded to 2 decimal
places, and 0 whenever the follower count is 0. -/
def specEngagementRate (interactionSum followers : Nat) : ℚ :=
  if followers = 0 then 0
  else round2 ((interactionSum : ℚ) / (followers : ℚ) * 100)

namespace EngagementScraper

/-- A per-post record collected by `_extract_posts_data` / `_fetch_profile_json`
(scrapper-ig.py): `{'likes': ..., 'comments': ...}`. -/
structure PostRec where
  likes : Nat
  comments : Nat
deriving DecidableEq, Repr

/-- The metrics dict returned by `_calculate_engagement`. -/
structure EngMetrics where
  avg_likes : ℚ
  avg_comments : ℚ
  avg_total_engagement : ℚ
  engagement_rate : ℚ
deriving DecidableEq, Repr

def sumLikes (posts : List PostRec) : Nat := (posts.map PostRec.likes).sum

def sumComments (posts : List PostRec) : Nat := (posts.map PostRec.comments).sum

/-- `InstagramEngagementScraper._calculate_engagement` (scrapper-ig.py):
all-zero metrics when `posts_data` is empty or `followers == 0`; otherwise
per-post averages, and an engagement rate computed from the AVERAGE engagement
per post (not the sum): `(avg_engagement / followers) * 100`. -/
def calculate_engagement (posts : List PostRec) (followers : Nat) : Option EngMetrics :=
  if posts.isEmpty ∨ followers = 0 then
    some ⟨0, 0, 0, 0⟩
  else
    (qdiv (sumLikes posts : ℚ) (posts.length : ℚ)).bind fun avgL =>
    (qdiv (sumComments posts : ℚ) (posts.length : ℚ)).bind fun avgC =>
    (if 0 < followers then
        (qdiv (avgL + avgC) (followers : ℚ)).map (· * 100)
      else some 0).bind fun rate =>
    some ⟨round2 avgL, round2 avgC, round2 (avgL + avgC), round2 rate⟩

end EngagementScraper

namespace TikTokXPath

/-- The metrics dict returned by `_calculate_metrics` in its normal branch. -/
structure Metrics where
  total_engagement_rate : ℚ
  avg_views_per_video : Int
  max_views : Int
  min_views : Int
  total_views_analyzed : Int
  videos_analyzed : Nat
  views_per_follower : ℚ
  virality_score : ℚ
  consistency_score : ℚ
  likes_per_video_estimate : Int
deriving DecidableEq, Repr

/-- Result of `_calculate_metrics`: either the explicit
`{'error': 'No videos found to analyze', 'videos_analyzed': 0}` marker or the
metrics dict. -/
inductive MetricsResult where
  | noVideos
  | ok (m : Metrics)
deriving DecidableEq, Repr

/-- The engagement rate carried by a metrics result, when there is one. -/
def MetricsResult.rate : MetricsResult → Option ℚ
  | .noVideos => none
  | .ok m => some m.total_engagement_rate

/-- Python `max(xs, default=0)`. -/
def maxViews (xs : List Int) : Int :=
  match xs with
  | [] => 0
  | y :: ys => ys.foldl max y

/-- Python `min(xs, default=0)`. -/
def minViews (xs : List Int) : Int :=
  match xs with
  | [] => 0
  | y :: ys => ys.foldl min y

/-- `statistics.stdev`: sample standard deviation; raises (`none`) on fewer
than two data points.  The square root is kept abstract as `sqrtFn` — it is
total on the non-negative variance, and no claim depends on its value. -/
def pyStdev (sqrtFn : ℚ → ℚ) (xs : List ℚ) : Option ℚ :=
  if xs.length < 2 then none
  else
    (qdiv xs.sum (xs.length : ℚ)).bind fun mean =>
    (qdiv ((xs.map (fun x => (x - mean) ^ 2)).sum) ((xs.length : ℚ) - 1)).map sqrtFn

/-- `AdvancedTikTokXPathScraper._calculate_metrics` (scrapper-tiktok-xpath.py).
Every Python division is modelled with checked division `qdiv`, so `none`
would mean an uncaught `ZeroDivisionError` (or `StatisticsError`). -/
def calculate_metrics (sqrtFn : ℚ → ℚ) (followers total_likes : Int)
    (videos : List VideoRec) : Option MetricsResult :=
  if videos.length = 0 then some MetricsResult.noVideos
  else
    (qdiv ((videos.map VideoRec.views).sum : ℚ) (videos.length : ℚ)).bind fun avgViews =>
    (if 0 < followers then
        (qdiv (total_likes : ℚ) (followers : ℚ)).map (· * 100)
      else some 0).bind fun engagementRate =>
    (if 0 < followers then qdiv avgViews (followers : ℚ) else some 0).bind
      fun viewsPerFollower =>
    (if 1 < videos.length then
        (pyStdev sqrtFn (videos.map (fun v => (v.views : ℚ)))).bind fun stdDev =>
          if 0 < avgViews then (qdiv stdDev avgViews).map (fun q => 100 - min (q * 100) 100)
          else some 0
      else some 0).bind fun consistency =>
    (qdiv (total_likes : ℚ) (videos.length : ℚ)).bind fun likesPerVideo =>
    some (MetricsResult.ok
      { total_engagement_rate := round2 engagementRate
        avg_views_per_video := pyInt avgViews
        max_views := maxViews (videos.map VideoRec.views)
        min_views := minViews (videos.map VideoRec.views)
        total_views_analyzed := (videos.map VideoRec.views).sum
        videos_analyzed := videos.length
        views_per_follower := round2 viewsPerFollower
        virality_score := round2 (viewsPerFollower * 100)
        consistency_score := round2 consistency
        likes_per_video_estimate := pyInt likesPerVideo })

end TikTokXPath

theorem optBindIsSome {α β : Type} (o : Option α) (f : α → Option β)
    (h1 : o.isSome) (h2 : ∀ a, (f a).isSome) : (o.bind f).isSome := by
  cases o with
  | none => simp at h1
  | some a => simpa using h2 a

namespace EngagementScraper

theorem calculate_engagement_total (posts : List PostRec) (followers : Nat) :
    (calculate_engagement posts followers).isSome := by
  unfold calculate_engagement
  by_cases h : posts.isEmpty = true ∨ followers = 0
  · rw [if_pos h]; rfl
  · push_neg at h
    obtain ⟨hne, hf⟩ := h
    have hlen : (posts.length : ℚ) ≠ 0 := by
      have : posts.length ≠ 0 := by
        cases posts with
        | nil => simp at hne
        | cons _ _ => simp
      exact_mod_cast this
    have hfq : (followers : ℚ) ≠ 0 := by exact_mod_cast hf
    rw [if_neg (by simp [hne, hf])]
    rw [qdiv_some _ _ hlen, Option.some_bind, qdiv_some _ _ hlen, Option.some_bind,
      if_pos (Nat.pos_of_ne_zero hf), qdiv_some _ _ hfq]
    rfl

end EngagementScraper

namespace TikTokXPath

theorem pyStdev_total (sqrtFn : ℚ → ℚ) (xs : List ℚ) (h : 2 ≤ xs.length) :
    (pyStdev sqrtFn xs).isSome := by
  unfold pyStdev
  rw [if_neg (by omega)]
  have h0 : (xs.length : ℚ) ≠ 0 := by
    have : xs.length ≠ 0 := by omega
    exact_mod_cast this
  have h1 : (xs.length : ℚ) - 1 ≠ 0 := by
    have h2 : (2 : ℚ) ≤ (xs.length : ℚ) := by exact_mod_cast h
    intro hc
    linarith
  rw [qdiv_some _ _ h0, Option.some_bind, qdiv_some _ _ h1]
  rfl

theorem calculate_metrics_total (sqrtFn : ℚ → ℚ) (followers total_likes : Int)
    (videos : List VideoRec) :
    (calculate_metrics sqrtFn followers total_likes videos).isSome := by
  unfold calculate_metrics
  by_cases h : videos.length = 0
  · rw [if_pos h]; rfl
  · rw [if_neg h]
    have hlen : (videos.length : ℚ) ≠ 0 := by exact_mod_cast h
    apply optBindIsSome
    · rw [qdiv_some _ _ hlen]; rfl
    intro avgViews
    apply optBindIsSome
    · by_cases hf : 0 < followers
      · rw [if_pos hf, qdiv_some _ _ (Int.cast_ne_zero.mpr hf.ne')]; rfl
      · rw [if_neg hf]; rfl
    intro engagementRate
    apply optBindIsSome
    · by_cases hf : 0 < followers
      · rw [if_pos hf, qdiv_some _ _ (Int.cast_ne_zero.mpr hf.ne')]; rfl
      · rw [if_neg hf]; rfl
    intro viewsPerFollower
    apply optBindIsSome
    · by_cases hgt : 1 < videos.length
      · rw [if_pos hgt]
        apply optBindIsSome
        · exact pyStdev_total sqrtFn _ (by simp; omega)
        intro stdDev
        by_cases havg : 0 < avgViews
        · rw [if_pos havg, qdiv_some _ _ havg.ne']; rfl
        · rw [if_neg havg]; rfl
      · rw [if_neg hgt]; rfl
    intro consistency
    apply optBindIsSome
    · rw [qdiv_some _ _ hlen]; rfl
    intro likesPerVideo
    rfl

end TikTokXPath

namespace TikTok

theorem findRun_head (t run after : List Char) (h : findRun t = some (run, after)) :
    ∃ c rest, run = c :: rest ∧ isDigitDot c = true := by
  induction t with
  | nil => simp [findRun] at h
  | cons c cs ih =>
    rw [findRun] at h
    by_cases hc : isDigitDot c = true
    · rw [if_pos hc] at h
      simp only [Option.some_inj, Prod.mk.injEq] at h
      refine ⟨c, (cs.takeWhile isDigitDot), ?_, hc⟩
      rw [← h.1]
      simp [List.takeWhile, hc]
    · rw [if_neg hc] at h
      exact ih h

theorem pyFloatChars_digitdot_nonneg (c : Char) (rest : List Char)
    (hc : isDigitDot c = true) (q : Int × Nat)
    (h : pyFloatChars (c :: rest) = some q) : 0 ≤ q.1 := by
  have hm : ¬ c = '-' := by
    intro heq; rw [heq] at hc; exact absurd hc (by decide)
  have hp : ¬ c = '+' := by
    intro heq; rw [heq] at hc; exact absurd hc (by decide)
  rw [pyFloatChars, if_neg hm, if_neg hp] at h
  cases hb : pyFloatBody (c :: rest) with
  | none => rw [hb] at h; simp at h
  | some p =>
    rw [hb] at h
    simp only [Option.map_some', Option.some_inj] at h
    rw [← h]
    exact Int.natCast_nonneg p.1

theorem truncDiv_nonneg (a : Int) (b : Nat) (h : 0 ≤ a) : 0 ≤ truncDiv a b := by
  rw [truncDiv, if_pos h]
  exact Int.natCast_nonneg _

theorem parse_count_core_nonneg (t : List Char) (r : Int)
    (h : parse_count_core t = some r) : 0 ≤ r := by
  cases hfr : findRun t with
  | none =>
    simp only [parse_count_core, hfr, Option.some_inj] at h
    omega
  | some p =>
    obtain ⟨run, after⟩ := p
    simp only [parse_count_core, hfr] at h
    obtain ⟨c, rest, hrun, hc⟩ := findRun_head t run after hfr
    cases hpf : pyFloatChars run with
    | none =>
      simp only [hpf] at h
      exact absurd h (by simp)
    | some q =>
      simp only [hpf, Option.some_inj] at h
      have hq : 0 ≤ q.1 := by
        rw [hrun] at hpf
        exact pyFloatChars_digitdot_nonneg c rest hc q hpf
      rw [← h, pyIntMul]
      apply truncDiv_nonneg
      exact mul_nonneg hq (Int.natCast_nonneg _)

theorem parse_count_nonneg (s : String) (r : Int) (h : parse_count s = some r) :
    0 ≤ r := by
  rw [parse_count] at h
  by_cases he : s.toList.isEmpty = true
  · rw [if_pos he] at h; simp at h; omega
  · rw [if_neg he] at h
    exact parse_count_core_nonneg _ r h

end TikTok

namespace TikTokXPath

theorem parse_count_nonneg_xpath (s : String) (r : Int) (h : parse_count s = some r) :
    0 ≤ r := by
  rw [parse_count] at h
  by_cases he : s.toList.isEmpty = true
  · rw [if_pos he] at h; simp at h; omega
  · rw [if_neg he] at h
    exact TikTok.parse_count_core_nonneg _ r h

end TikTokXPath

/-- Five comment elements for the isolation scenario: items 1, 2, 4, 5 extract
normally, extraction of item 3 raises. -/
def demoComments : List CommentsScraper.CommentElem :=
  [⟨[some "alice"], [some "hello"], false⟩,
   ⟨[some "bob"], [some "hey"], false⟩,
   ⟨[], [], true⟩,
   ⟨[some "carol"], [some "nice"], false⟩,
   ⟨[some "dan"], [some "cool"], false⟩]

/-- Five rendered video items: items 1, 2, 4, 5 carry views/link nodes,
extraction of item 3 raises. -/
def demoVideos : List TikTokXPath.VideoElem :=
  [⟨some "10", some (some "/video/1"), false⟩,
   ⟨some "20", some (some "/video/2"), false⟩,
   ⟨none, none, true⟩,
   ⟨some "40", some (some "/video/4"), false⟩,
   ⟨some "50", some (some "/video/5"), false⟩]

/-- Two fully rendered video items with DISTINCT view counts in the DOM. -/
def demoTwoVideos : List TikTokXPath.VideoElem :=
  [⟨some "10", some (some "/video/1"), false⟩,
   ⟨some "20", some (some "/video/2"), false⟩]

/-- The engagement rate reached through an `Option` of engagement metrics. -/
theorem engagement_rate_formula (posts : List EngagementScraper.PostRec) (followers : Nat)
    (h1 : ¬ posts.isEmpty = true) (h2 : followers ≠ 0) :
    (EngagementScraper.calculate_engagement posts followers).map
        EngagementScraper.EngMetrics.engagement_rate =
      some (round2 (((EngagementScraper.sumLikes posts : ℚ) / (posts.length : ℚ) +
        (EngagementScraper.sumComments posts : ℚ) / (posts.length : ℚ)) /
          (followers : ℚ) * 100)) := by
  unfold EngagementScraper.calculate_engagement
  rw [if_neg (by simp [h1, h2])]
  have hlen : (posts.length : ℚ) ≠ 0 := by
    have : posts.length ≠ 0 := by
      cases posts with
      | nil => simp at h1
      | cons _ _ => simp
    exact_mod_cast this
  rw [qdiv_some _ _ hlen, Option.some_bind, qdiv_some _ _ hlen, Option.some_bind,
    if_pos (Nat.pos_of_ne_zero h2), qdiv_some _ _ (by exact_mod_cast h2),
    Option.map_some', Option.some_bind, Option.map_some']

/-- Claim C1, counterexample: in `scrape_post_comments`, a comment whose
extraction raises is skipped (`except ... continue` / `if comment_info:`), so
for 5 discovered items with item 3 throwing, the returned sequence has length
4, not 5. -/
theorem C1_counterexample_item_error_drops_record :
    (CommentsScraper.scrape_comments_loop demoComments).length = 4 ∧
      (CommentsScraper.scrape_comments_loop demoComments).length ≠ 5 := by
  constructor <;> decide

/-- Claim C1, amended: one malformed item never drops the OTHER items, but the
two implementations differ from the claim.  The IG comments loop returns one
record per non-raising element (a throwing item is dropped entirely, so the
sequence has length n-1 and no `partial` flag exists; on the demo page items
1, 2, 4, 5 survive unaffected with their own data).  The TikTok `_load_videos`
loop preserves length n, appending for a throwing item the default record
`{index := i, views := 0, url := none}` (defaults `0`/`None`, not an empty
string, and no `partial` flag). -/
theorem C1_item_error_isolation_amended :
    (∀ elems : List CommentsScraper.CommentElem,
        (CommentsScraper.scrape_comments_loop elems).length =
          (elems.filter fun e => !e.raises).length) ∧
      CommentsScraper.scrape_comments_loop demoComments =
        [⟨1, "alice", "hello"⟩, ⟨2, "bob", "hey"⟩,
         ⟨4, "carol", "nice"⟩, ⟨5, "dan", "cool"⟩] ∧
      (∀ (pv : String) (elems : List TikTokXPath.VideoElem),
        (TikTokXPath.extract_pass pv elems []).length = elems.length) ∧
      (TikTokXPath.extract_pass (TikTokXPath.pageQueryViews demoVideos)
          demoVideos []).length = 5 ∧
      (TikTokXPath.extract_pass (TikTokXPath.pageQueryViews demoVideos)
          demoVideos []).get? 2 = some ⟨3, 0, none⟩ := by
  refine ⟨?_, by decide, ?_, by decide, by decide⟩
  · intro elems
    exact CommentsScraper.scrape_loop_length_aux elems 1
  · intro pv elems
    have := TikTokXPath.extract_pass_aux_length pv elems 0 [] rfl
    simpa [TikTokXPath.extract_pass] using this

/-- Claim C2: `_scroll_comments_to_end` declares convergence exactly when a
run of 2 consecutive equal signature readings occurs (the first reading equal
to the previous one), and on the signature sequence [10, 20, 20, 20] it
converges at the 3rd reading having performed exactly 3 scroll actions. -/
theorem C2_scroll_convergence_rule :
    (∀ sig : Nat → Int, (∀ j, 0 ≤ sig j) → ∀ k : Nat,
        CommentsScraper.scroll_comments_to_end sig = (true, k + 1) ↔
          (1 ≤ k ∧ k < 30 ∧ sig k = sig (k - 1) ∧
            ∀ j, 1 ≤ j → j < k → sig j ≠ sig (j - 1))) ∧
      CommentsScraper.scroll_comments_to_end
          (fun i => ([10, 20, 20, 20] : List Int).getD i 20) = (true, 3) := by
  constructor
  · intro sig hnn k
    have hzero : ¬ sig 0 = CommentsScraper.prevSig sig 0 := by
      intro hc
      have h0 := hnn 0
      rw [hc] at h0
      simp only [CommentsScraper.prevSig] at h0
      omega
    have hprev : ∀ j : Nat, 1 ≤ j → CommentsScraper.prevSig sig j = sig (j - 1) := by
      intro j hj
      cases j with
      | zero => omega
      | succ j' => simp [CommentsScraper.prevSig]
    constructor
    · intro heq
      by_cases hex : ∃ j, j < 30 ∧ sig j = CommentsScraper.prevSig sig j
      · obtain ⟨hm30, hmconv⟩ := Nat.find_spec hex
        have hmin : ∀ j, j < Nat.find hex → sig j ≠ CommentsScraper.prevSig sig j := by
          intro j hj hc
          exact Nat.find_min hex hj ⟨by omega, hc⟩
        have hrun : CommentsScraper.scroll_comments_to_end sig = (true, Nat.find hex + 1) :=
          CommentsScraper.scroll_aux_converges sig 30 0 (Nat.find hex) (by omega)
            (by omega) hmconv (fun j _ hj => hmin j hj)
        rw [heq] at hrun
        simp only [Prod.mk.injEq, true_and] at hrun
        have hk : k = Nat.find hex := by omega
        have hm1 : 1 ≤ Nat.find hex := by
          rcases Nat.eq_zero_or_pos (Nat.find hex) with h0 | h1
          · exfalso
            rw [h0] at hmconv
            exact hzero hmconv
          · exact h1
        refine ⟨by omega, by omega, ?_, ?_⟩
        · rw [hk, ← hprev (Nat.find hex) hm1]
          exact hmconv
        · intro j hj1 hj2
          rw [← hprev j hj1]
          exact hmin j (by omega)
      · push_neg at hex
        have hfalse : CommentsScraper.scroll_comments_to_end sig = (false, 0 + 30) :=
          CommentsScraper.scroll_aux_exhausts sig 30 0 (fun j _ hj => hex j (by omega))
        rw [heq] at hfalse
        simp at hfalse
    · rintro ⟨hk1, hk30, hconv, hmin⟩
      have hconv' : sig k = CommentsScraper.prevSig sig k := by
        rw [hprev k hk1]
        exact hconv
      have hmin' : ∀ j, 0 ≤ j → j < k → sig j ≠ CommentsScraper.prevSig sig j := by
        intro j _ hjk hc
        rcases Nat.eq_zero_or_pos j with h0 | h1
        · rw [h0] at hc
          exact hzero hc
        · exact hmin j h1 hjk (by rw [← hprev j h1]; exact hc)
      exact CommentsScraper.scroll_aux_converges sig 30 0 k (by omega) (by omega)
        hconv' hmin'
  · decide

/-- Claim C2, witness: the characterization applied to the concrete signature
sequence [10, 20, 20, 20] at k = 2 (3rd reading, 3 scroll actions). -/
theorem C2_scroll_convergence_rule_witness :
    CommentsScraper.scroll_comments_to_end
        (fun i => ([10, 20, 20, 20] : List Int).getD i 20) = (true, 2 + 1) := by
  have hnn : ∀ j : Nat, 0 ≤ ([10, 20, 20, 20] : List Int).getD j 20 := by
    intro j
    rcases j with _ | _ | _ | _ | j
    · decide
    · decide
    · decide
    · decide
    · show (0 : Int) ≤ 20
      omega
  exact (C2_scroll_convergence_rule.1 _ hnn 2).mpr
    ⟨by omega, by omega, by decide, by
      intro j h1 h2
      interval_cases j
      decide⟩

/-- Claim C3, counterexample: `InstagramScraper._parse_number` raises
`IndexError` on the empty string (token extraction runs outside the `try`),
and `_convert_to_number` raises `ValueError` on `"K"` — so "parse never
raises" is false for two of the three cited implementations. -/
theorem C3_counterexample_parse_number_raises :
    InstagramScraper.parse_number "" = none ∧
      EngagementScraper.convert_to_number "K" = none := by
  constructor <;> decide

/-- Claim C3, amended: only the comments-scraper variant is total — its single
`try` converts every failure (including the token `IndexError`) to 0;
`InstagramScraper._parse_number` raises on any token-less input, and
`_convert_to_number` raises when a recognized suffix leaves an unparseable
numeral. -/
theorem C3_number_parser_totality_amended :
    (∀ s : String, InstagramScraper.parse_number s = none →
        CommentsScraper.parse_number s = 0) ∧
      CommentsScraper.parse_number "" = 0 ∧
      CommentsScraper.parse_number "abc" = 0 ∧
      InstagramScraper.parse_number "   " = none ∧
      EngagementScraper.convert_to_number "1.2.3K" = none := by
  refine ⟨?_, by decide, by decide, by decide, by decide⟩
  intro s h
  rw [CommentsScraper.parse_number, h]
  rfl

/-- Claim C3, witness: the whitespace-only input on which the instagram
variant raises is mapped to 0 by the comments variant. -/
theorem C3_number_parser_totality_amended_witness :
    CommentsScraper.parse_number "   " = 0 :=
  C3_number_parser_totality_amended.1 "   " (by decide)

/-- Claim C4, counterexample: `InstagramScraper._parse_number` has no `B`
suffix handling, so `parse("1.2B")` is 0, not 1200000000 (and `parse("")`
raises rather than returning 0; `TikTokProfileScraper.parse_count` keeps
commas, so `parse("1,234")` is 1, not 1234). -/
theorem C4_counterexample_reference_values :
    InstagramScraper.parse_number "1.2B" = some 0 ∧
      (some (0 : Int) ≠ some (1200000000 : Int)) ∧
      InstagramScraper.parse_number "" = none ∧
      TikTok.parse_count "1,234" = some 1 := by
  refine ⟨by decide, by decide, by decide, by decide⟩

/-- Claim C4, amended: the XPath TikTok variant satisfies all six table rows;
`InstagramScraper._parse_number` matches only four (it raises on `""` and
returns 0 on `"1.2B"`); the plain TikTok variant matches five (it returns 1 on
`"1,234"` because commas are not stripped). -/
theorem C4_reference_values_amended :
    (TikTokXPath.parse_count "1,234" = some 1234 ∧
      TikTokXPath.parse_count "2.5K" = some 2500 ∧
      TikTokXPath.parse_count "3M" = some 3000000 ∧
      TikTokXPath.parse_count "" = some 0 ∧
      TikTokXPath.parse_count "abc" = some 0 ∧
      TikTokXPath.parse_count "1.2B" = some 1200000000) ∧
    (InstagramScraper.parse_number "1,234" = some 1234 ∧
      InstagramScraper.parse_number "2.5K" = some 2500 ∧
      InstagramScraper.parse_number "3M" = some 3000000 ∧
      InstagramScraper.parse_number "" = none ∧
      InstagramScraper.parse_number "abc" = some 0 ∧
      InstagramScraper.parse_number "1.2B" = some 0) ∧
    (TikTok.parse_count "1,234" = some 1 ∧
      TikTok.parse_count "2.5K" = some 2500 ∧
      TikTok.parse_count "3M" = some 3000000 ∧
      TikTok.parse_count "" = some 0 ∧
      TikTok.parse_count "abc" = some 0 ∧
      TikTok.parse_count "1.2B" = some 1200000000) := by
  exact ⟨⟨by decide, by decide, by decide, by decide, by decide, by decide⟩,
    ⟨by decide, by decide, by decide, by decide, by decide, by decide⟩,
    ⟨by decide, by decide, by decide, by decide, by decide, by decide⟩⟩

/-- Claim C5, counterexample: `_calculate_engagement` divides the AVERAGE
engagement per post by the follower count, not the interaction sum: three
posts totalling 150 likes with 10000 followers yield a rate of 0.5, while the
claimed formula (sum / followers * 100 rounded) gives 1.5. -/
theorem C5_counterexample_engagement_rate_uses_average :
    (EngagementScraper.calculate_engagement
          [⟨150, 0⟩, ⟨0, 0⟩, ⟨0, 0⟩] 10000).map
        EngagementScraper.EngMetrics.engagement_rate = some (1/2) ∧
      specEngagementRate 150 10000 = 3/2 ∧
      ((1 : ℚ)/2) ≠ 3/2 := by
  refine ⟨?_, ?_, by norm_num⟩
  · rw [engagement_rate_formula _ _ (by decide) (by norm_num)]
    norm_num [EngagementScraper.sumLikes, EngagementScraper.sumComments,
      round2, roundHalfEven]
  · norm_num [specEngagementRate, round2, roundHalfEven]

/-- Claim C5, amended: `InstagramScraper.calculate_engagement_rate` computes
exactly the spec formula on the interaction sum (likes + comments), returns 0
for zero followers without raising, and maps the 150 / 10000 example to 1.50;
`_calculate_engagement` instead divides the per-post AVERAGE engagement by the
follower count (sum / numPosts / followers * 100). -/
theorem C5_engagement_rate_amended :
    (∀ likes comments followers : Nat,
        InstagramScraper.calculate_engagement_rate likes comments followers =
          some (specEngagementRate (likes + comments) followers)) ∧
      InstagramScraper.calculate_engagement_rate 150 0 10000 = some (3/2) ∧
      (∀ (posts : List EngagementScraper.PostRec) (followers : Nat),
        ¬ posts.isEmpty = true → followers ≠ 0 →
        (EngagementScraper.calculate_engagement posts followers).map
            EngagementScraper.EngMetrics.engagement_rate =
          some (round2 (((EngagementScraper.sumLikes posts : ℚ) +
              (EngagementScraper.sumComments posts : ℚ)) /
            (posts.length : ℚ) / (followers : ℚ) * 100))) := by
  have hmain : ∀ likes comments followers : Nat,
      InstagramScraper.calculate_engagement_rate likes comments followers =
        some (specEngagementRate (likes + comments) followers) := by
    intro l c f
    unfold InstagramScraper.calculate_engagement_rate specEngagementRate
    by_cases hf : f = 0
    · subst hf
      rw [if_neg (by omega), if_pos rfl]
      simp only [Option.map_some']
      norm_num [round2, roundHalfEven]
    · rw [if_pos (Nat.pos_of_ne_zero hf), if_neg hf,
        qdiv_some _ _ (by exact_mod_cast hf), Option.map_some', Option.map_some']
      congr 2
      push_cast
      ring
  refine ⟨hmain, ?_, ?_⟩
  · rw [hmain 150 0 10000]
    norm_num [specEngagementRate, round2, roundHalfEven]
  · intro posts followers h1 h2
    rw [engagement_rate_formula posts followers h1 h2, div_add_div_same]

/-- Claim C5, witness: the average-based scrapper-ig formula applied to the
three-post example. -/
theorem C5_engagement_rate_amended_witness :
    (EngagementScraper.calculate_engagement
          [⟨150, 0⟩, ⟨0, 0⟩, ⟨0, 0⟩] 10000).map
        EngagementScraper.EngMetrics.engagement_rate =
      some (round2 (((EngagementScraper.sumLikes [⟨150, 0⟩, ⟨0, 0⟩, ⟨0, 0⟩] : ℚ) +
          (EngagementScraper.sumComments [⟨150, 0⟩, ⟨0, 0⟩, ⟨0, 0⟩] : ℚ)) /
        (([⟨150, 0⟩, ⟨0, 0⟩, ⟨0, 0⟩] : List EngagementScraper.PostRec).length : ℚ) /
        ((10000 : Nat) : ℚ) * 100)) :=
  C5_engagement_rate_amended.2.2 [⟨150, 0⟩, ⟨0, 0⟩, ⟨0, 0⟩] 10000 (by decide) (by omega)

/-- Claim C6, counterexample: `_calculate_metrics` on an empty video list
returns the explicit error marker `{'error': ..., 'videos_analyzed': 0}`,
which carries NO rate field at all — not a metrics record with rate 0. -/
theorem C6_counterexample_empty_metrics_no_rate :
    (TikTokXPath.calculate_metrics (fun q => q) 0 0 []).bind
        TikTokXPath.MetricsResult.rate = none ∧
      (none : Option ℚ) ≠ some 0 := by
  constructor
  · rfl
  · simp

/-- Claim C6, amended: `_calculate_engagement` does return the all-zero
summary (rate 0 included) on an empty record list or zero followers, and
neither aggregator can hit a division by zero on any input; but
`_calculate_metrics` answers the empty case with an explicit no-videos error
marker instead of zero means. -/
theorem C6_empty_aggregation_amended :
    (∀ followers : Nat,
        EngagementScraper.calculate_engagement [] followers = some ⟨0, 0, 0, 0⟩) ∧
      (∀ posts : List EngagementScraper.PostRec,
        EngagementScraper.calculate_engagement posts 0 = some ⟨0, 0, 0, 0⟩) ∧
      (∀ (posts : List EngagementScraper.PostRec) (followers : Nat),
        (EngagementScraper.calculate_engagement posts followers).isSome) ∧
      (∀ (sqrtFn : ℚ → ℚ) (followers total_likes : Int),
        TikTokXPath.calculate_metrics sqrtFn followers total_likes [] =
          some TikTokXPath.MetricsResult.noVideos) ∧
      (∀ (sqrtFn : ℚ → ℚ) (followers total_likes : Int)
          (videos : List TikTokXPath.VideoRec),
        (TikTokXPath.calculate_metrics sqrtFn followers total_likes videos).isSome) := by
  refine ⟨?_, ?_, EngagementScraper.calculate_engagement_total,
    fun _ _ _ => rfl, TikTokXPath.calculate_metrics_total⟩
  · intro f
    rw [EngagementScraper.calculate_engagement, if_pos (by simp)]
  · intro posts
    rw [EngagementScraper.calculate_engagement, if_pos (by simp)]

/-- Claim C7: evaluation of the per-item scoping bug.  On a page with two
video items whose DOM view counts are "10" and "20", `_load_videos` extracts
views [10, 10]: the first views query runs against the whole document
(`get_element_text` on `self.page`), so item 2 receives item 1's value and
two distinct items with distinct field values do NOT yield distinct extracted
values. -/
theorem C7_scoping_bug_evaluation :
    demoTwoVideos.map TikTokXPath.VideoElem.viewsNode = [some "10", some "20"] ∧
      (TikTokXPath.extract_pass (TikTokXPath.pageQueryViews demoTwoVideos)
          demoTwoVideos []).map TikTokXPath.VideoRec.views = [10, 10] := by
  constructor <;> decide

/-- Claim C8: index ordering invariant.  `_load_videos` returns records whose
indices are exactly 1..n in order (appended once, never re-assigned, for any
sequence of DOM passes and any cap); the IG comment loop returns indices that
form a strictly increasing sublist of 1..n, and each record was produced from
the element at its own 1-based discovery position. -/
theorem C8_index_ordering_invariant :
    (∀ (passes : Nat → List TikTokXPath.VideoElem) (maxVideos : Nat),
        (TikTokXPath.load_videos passes maxVideos).map TikTokXPath.VideoRec.index =
          List.range' 1 (TikTokXPath.load_videos passes maxVideos).length) ∧
      (∀ elems : List CommentsScraper.CommentElem,
        ((CommentsScraper.scrape_comments_loop elems).map
            CommentsScraper.CommentData.index).Sublist
          (List.range' 1 elems.length)) ∧
      (∀ (elems : List CommentsScraper.CommentElem) (d : CommentsScraper.CommentData),
        d ∈ CommentsScraper.scrape_comments_loop elems →
        1 ≤ d.index ∧
          (elems.get? (d.index - 1)).bind
              (fun e => CommentsScraper.extract_comment_data e d.index) = some d) := by
  refine ⟨?_, ?_, ?_⟩
  · intro passes maxV
    exact TikTokXPath.load_videos_go_index passes maxV 20 0 0 0 [] (by simp)
  · intro elems
    exact CommentsScraper.scrape_loop_index_sublist_aux elems 1
  · intro elems d hd
    exact CommentsScraper.scrape_loop_provenance_aux elems 1 d hd

/-- Claim C8, witness: the record with index 4 on the demo page indeed came
from discovery position 4. -/
theorem C8_index_ordering_invariant_witness :
    1 ≤ (⟨4, "carol", "nice"⟩ : CommentsScraper.CommentData).index ∧
      (demoComments.get? (4 - 1)).bind
          (fun e => CommentsScraper.extract_comment_data e 4) =
        some ⟨4, "carol", "nice"⟩ :=
  C8_index_ordering_invariant.2.2 demoComments ⟨4, "carol", "nice"⟩ (by decide)

/-- Claim C9: bounded pagination with soft failure.  The comments scroll loop
performs at most 30 scroll actions for every signature stream, reports
non-convergence by returning `False` having performed exactly 30, and the
inline comment-window loop of `_scrape_single_post` runs at most 20
iterations; both are total functions of the reading stream (no exception). -/
theorem C9_bounded_pagination :
    (∀ sig : Nat → Int, (CommentsScraper.scroll_comments_to_end sig).2 ≤ 30) ∧
      (∀ sig : Nat → Int, (CommentsScraper.scroll_comments_to_end sig).1 = false →
        (CommentsScraper.scroll_comments_to_end sig).2 = 30) ∧
      (∀ f : Nat → Int × Int, (InstagramScraper.single_post_scroll f).2 ≤ 20) := by
  refine ⟨?_, ?_, ?_⟩
  · intro sig
    have := (CommentsScraper.scroll_aux_bound sig 30 0 (-1)).1
    simpa [CommentsScraper.scroll_comments_to_end] using this
  · intro sig h
    have := (CommentsScraper.scroll_aux_bound sig 30 0 (-1)).2 h
    simpa [CommentsScraper.scroll_comments_to_end] using this
  · intro f
    have := InstagramScraper.post_scroll_aux_bound f 20 0
    simpa [InstagramScraper.single_post_scroll] using this

/-- Claim C9, witness: a strictly growing signature stream never converges and
the loop stops after exactly its 30-attempt cap. -/
theorem C9_bounded_pagination_witness :
    (CommentsScraper.scroll_comments_to_end (fun i => (i : Int))).2 = 30 :=
  C9_bounded_pagination.2.1 (fun i => (i : Int)) (by decide)

/-- Claim C10, counterexample: both regex-based parsers raise `ValueError` on
`"."` — the pattern `[\d.]+` matches a token with no digit and `float('.')`
fails outside any `try` — so they do not return an integer for every input. -/
theorem C10_counterexample_parse_count_raises :
    TikTok.parse_count "." = none ∧ TikTokXPath.parse_count "." = none := by
  constructor <;> decide

/-- Claim C10, amended: whenever either parser returns, the result is
nonnegative — the digit pattern cannot capture a minus sign (so "-5" parses
as 5) — but on inputs whose matched token has no digit (such as ".") the
parsers raise instead of returning. -/
theorem C10_parse_count_nonneg_amended :
    (∀ (s : String) (r : Int), TikTok.parse_count s = some r → 0 ≤ r) ∧
      (∀ (s : String) (r : Int), TikTokXPath.parse_count s = some r → 0 ≤ r) ∧
      TikTok.parse_count "-5" = some 5 :=
  ⟨TikTok.parse_count_nonneg, TikTokXPath.parse_count_nonneg_xpath, by decide⟩

/-- Claim C10, witness: nonnegativity applied at the "-5" input. -/
theorem C10_parse_count_nonneg_amended_witness :
    TikTok.parse_count "-5" = some 5 ∧ (0 : Int) ≤ 5 :=
  ⟨by decide, C10_parse_count_nonneg_amended.1 "-5" 5 (by decide)⟩
